import Mathlib

/-!
Shallow embedding of the request pipeline, cohort token store and object-store
gateway of the namada-trusted-setup coordinator
(src/phase1-coordinator/src/rest.rs, src/phase1-coordinator/src/s3.rs,
src/phase2-coordinator/src/s3.rs), together with proofs of the specified
properties.

Bytes are modelled as `Nat` (values < 256 where relevant), byte buffers as
`List Nat`, header values as `String`.  External cryptographic primitives
(SHA-256, the signature scheme) are abstract parameters of the definitions:
the claims under verification are about the plumbing around them, not about
the primitives themselves.
-/

namespace Ceremony

/-- A ceremony participant, identified by kind and address
(`Participant` in the coordinator). -/
inductive Participant where
  | contributor (addr : String)
  | verifier (addr : String)
deriving DecidableEq

/-- A verification task: (round, chunk, contribution index)
(`objects::Task`). This deployment always uses chunk 0. -/
structure CTask where
  round : Nat
  chunk : Nat
  contribution : Nat
deriving DecidableEq

/-- Header name constants from rest.rs. -/
def BODY_DIGEST_HEADER : String := "Digest"

def PUBKEY_HEADER : String := "ATS-Pubkey"

def SIGNATURE_HEADER : String := "ATS-Signature"

def CONTENT_LENGTH_HEADER : String := "Content-Length"

/-- `ResponseError` of rest.rs.  Error payloads that are only interpolated
into the display string are kept as `String`. -/
inductive ResponseError where
  | CeremonyIsOver
  | CoordinatorError (msg : String)
  | InvalidContributionInfo (msg : String)
  | InvalidSecret
  | InvalidHeader (h : String)
  | InvalidNewTokens
  | InvalidSignature
  | InvalidToken (cohort : Nat)
  | InvalidTokenFormat
  | IoError (msg : String)
  | MismatchingChecksum (expected actual : String)
  | MissingRequiredHeader (h : String)
  | MissingSigningKey
  | SerdeError (msg : String)
  | ShutdownError (msg : String)
  | UnauthorizedParticipant (p : Participant) (endpoint cause : String)
  | UnknownContributor (key : String)
  | UnknownTask (t : CTask)
  | WrongDigestEncoding (digest : String)
deriving DecidableEq

/-- The HTTP status chosen by `ResponseError::respond_to` (rest.rs lines
117-145).  `Status::Unauthorized` is 401, `BadRequest` 400, `LengthRequired`
411, `UnprocessableEntity` 422, and the catch-all arm is
`InternalServerError` 500. -/
def ResponseError.statusOf : ResponseError → Nat
  | .CeremonyIsOver => 401
  | .InvalidHeader _ => 400
  | .InvalidSecret => 401
  | .InvalidSignature => 400
  | .InvalidToken _ => 401
  | .InvalidTokenFormat => 400
  | .MismatchingChecksum _ _ => 400
  | .MissingRequiredHeader h => if h = CONTENT_LENGTH_HEADER then 411 else 400
  | .MissingSigningKey => 400
  | .SerdeError _ => 422
  | .UnauthorizedParticipant _ _ _ => 401
  | .WrongDigestEncoding _ => 400
  | _ => 500

/-! ## Cohort token store -/

/-- The token-relevant part of the coordinator state.  `tokens` models the
`Vec<HashSet<String>>` of per-cohort token sets held by `CoordinatorState`;
`cohort` is the value returned by `get_cohort()`; `archiveFile` models the
content of the `tokens.zip` file on disk (none if absent).

Modelled from the spec: `CoordinatorState` itself is outside the extracted
sources; per §4.2 `tokens(cohort)` returns the set for that cohort index or
none past the end of the ceremony, which is `List.get?` on the vector of
sets. -/
structure CohortState where
  cohort : Nat
  tokens : List (Finset String)
  archiveFile : Option (List Nat)
deriving DecidableEq

/-- `CoordinatorState::tokens(cohort)`: the token set of a cohort, none when
the ceremony has ended beyond this index. -/
def tokensAt (st : CohortState) (i : Nat) : Option (Finset String) :=
  st.tokens.get? i

/-- ASCII hexadecimal digit, the character class `[[:xdigit:]]` of the token
regular expression. -/
def isXdigit (c : Char) : Bool :=
  ('0' ≤ c && c ≤ '9') || ('a' ≤ c && c ≤ 'f') || ('A' ≤ c && c ≤ 'F')

/-- Semantics of `TOKEN_REGEX = ^[[:xdigit:]]{20}$` under `Regex::is_match`:
the whole string is exactly 20 hexadecimal digits. -/
def tokenMatchesRegex (t : String) : Bool :=
  t.data.length = 20 && t.data.all isXdigit

/-- `token_check` (rest.rs lines 620-642): reject a badly formatted token,
then look up the current cohort's token set (absent set means the ceremony
is over), then require membership. -/
def token_check (st : CohortState) (token : String) : Except ResponseError Unit :=
  if !tokenMatchesRegex token then
    .error .InvalidTokenFormat
  else
    match tokensAt st st.cohort with
    | none => .error .CeremonyIsOver
    | some ts => if token ∈ ts then .ok () else .error (.InvalidToken st.cohort)

/-! ## update_cohorts -/

/-- `update_cohorts` (rest.rs lines 850-911), with the zip parsing plus
`CoordinatorState::load_tokens_from_bytes` abstracted as `parseArchive`
(that code is outside the extracted sources).  Returns the endpoint result
together with the state after the call; the state is written exactly where
the source writes it: the archive file is persisted to disk first, the
in-memory token sets are replaced afterwards, and both happen only after the
current-cohort check has passed.  The current-cohort check of the source
compares `new.len() == old.len()` and `new.difference(old).count() == 0` on
hash sets, i.e. cardinalities and the cardinality of the set difference. -/
def update_cohorts (parseArchive : List Nat → Except ResponseError (List (Finset String)))
    (st : CohortState) (zipBytes : List Nat) :
    Except ResponseError Unit × CohortState :=
  match parseArchive zipBytes with
  | .error e => (.error e, st)
  | .ok newTokens =>
    match tokensAt st st.cohort with
    | none => (.error .CeremonyIsOver, st)
    | some oldTokens =>
      match newTokens.get? st.cohort with
      | some nt =>
        if nt.card = oldTokens.card then
          if (nt \ oldTokens).card ≠ 0 then
            (.error .InvalidNewTokens, st)
          else
            -- persist the archive to disk, then replace the in-memory tokens
            (.ok (), { st with archiveFile := some zipBytes, tokens := newTokens })
        else (.error .InvalidNewTokens, st)
      | none => (.error .InvalidNewTokens, st)

/-! ## Base64 (the `base64` crate's standard alphabet with padding) -/

/-- The standard base64 alphabet. -/
def base64Chars : List Char :=
  "ABCDEFGHIJKLMNOPQRSTUVWXYZabcdefghijklmnopqrstuvwxyz0123456789+/".data

/-- Character of a 6-bit value. -/
def b64CharOf (n : Nat) : Char := base64Chars.getD n 'A'

/-- Index of a character in the base64 alphabet, none for characters outside
it. -/
def b64Index (c : Char) : Option Nat := base64Chars.findIdx? (· = c)

/-- `base64::encode`: standard alphabet, `=` padding. -/
def base64Encode : List Nat → List Char
  | [] => []
  | [b1] =>
    [b64CharOf (b1 / 4), b64CharOf (b1 % 4 * 16), '=', '=']
  | [b1, b2] =>
    [b64CharOf (b1 / 4), b64CharOf (b1 % 4 * 16 + b2 / 16), b64CharOf (b2 % 16 * 4), '=']
  | b1 :: b2 :: b3 :: rest =>
    b64CharOf (b1 / 4) :: b64CharOf (b1 % 4 * 16 + b2 / 16) ::
      b64CharOf (b2 % 16 * 4 + b3 / 64) :: b64CharOf (b3 % 64) :: base64Encode rest

/-- `base64::decode`: blocks of four alphabet characters, the last block
optionally padded with one or two `=`, non-canonical trailing bits
rejected.  Returns the decoded bytes, none on any decoding error. -/
def base64Decode : List Char → Option (List Nat)
  | [] => some []
  | c1 :: c2 :: c3 :: c4 :: rest =>
    match b64Index c1, b64Index c2 with
    | some v1, some v2 =>
      if c3 = '=' then
        if c4 = '=' && rest.isEmpty && v2 % 16 = 0 then
          some [v1 * 4 + v2 / 16]
        else none
      else
        match b64Index c3 with
        | some v3 =>
          if c4 = '=' then
            if rest.isEmpty && v3 % 4 = 0 then
              some [v1 * 4 + v2 / 16, v2 % 16 * 16 + v3 / 4]
            else none
          else
            match b64Index c4 with
            | some v4 =>
              (base64Decode rest).map
                (fun tl => (v1 * 4 + v2 / 16) :: (v2 % 16 * 16 + v3 / 4) :: (v3 % 4 * 64 + v4) :: tl)
            | none => none
        | none => none
    | _, _ => none
  | _ => none

/-! ## Request headers and signature message -/

/-- `str::parse::<usize>` on a 64-bit target: an optional leading plus sign,
then one or more ASCII digits, overflow rejected. -/
def parseUsize (s : String) : Option Nat :=
  let cs :=
    match s.data with
    | '+' :: rest => rest
    | cs => cs
  if cs ≠ [] ∧ cs.all Char.isDigit then
    let v := cs.foldl (fun acc c => acc * 10 + (c.toNat - 48)) 0
    if v < 2 ^ 64 then some v else none
  else none

/-- `str::split_once('=')`: the parts before and after the first `=`, none
when the character does not occur. -/
def splitOnceEqAux : List Char → Option (List Char × List Char)
  | [] => none
  | c :: cs =>
    if c = '=' then some ([], cs)
    else (splitOnceEqAux cs).map (fun p => (c :: p.1, p.2))

/-- `split_once('=')` on strings. -/
def splitOnceEq (s : String) : Option (String × String) :=
  (splitOnceEqAux s.data).map (fun p => (String.mk p.1, String.mk p.2))

/-- `RequestContent` of rest.rs: declared body length and the base64 digest
string carried by the request. -/
structure RequestContent where
  len : Nat
  digest : String
deriving DecidableEq

/-- `RequestContent::try_from_header` (rest.rs lines 217-233): take what
follows the first `=` of the Digest header (missing `=` is a bad header),
require it to be valid base64 (the decode error becomes
`WrongDigestEncoding`), and parse the Content-Length value. -/
def tryFromHeader (len digestHeader : String) : Except ResponseError RequestContent :=
  match splitOnceEq digestHeader with
  | none => .error (.InvalidHeader BODY_DIGEST_HEADER)
  | some (_, digest) =>
    match base64Decode digest.data with
    | none => .error (.WrongDigestEncoding digest)
    | some _ =>
      match parseUsize len with
      | none => .error (.InvalidHeader CONTENT_LENGTH_HEADER)
      | some n => .ok ⟨n, digest⟩

/-- `SignatureHeaders` of rest.rs: the headers involved in the signature. -/
structure SignatureHeaders where
  pubkey : String
  content : Option RequestContent
  signature : Option String
deriving DecidableEq

/-- `SignatureHeaders::to_string` (rest.rs lines 246-251): the message on
which the signature is computed.  With body content it is
`pubkey ++ len ++ digest` formatted with no separators (the length in
decimal); without content it is the public key alone. -/
def SignatureHeaders.toMessage (h : SignatureHeaders) : String :=
  match h.content with
  | some c => h.pubkey ++ Nat.repr c.len ++ c.digest
  | none => h.pubkey

/-- HTTP method of a request. -/
inductive Method where
  | get
  | post
deriving DecidableEq

/-- An incoming HTTP request: method, the headers the pipeline looks at, and
the raw body data stream. -/
structure Request where
  method : Method
  pubkeyHeader : Option String
  signatureHeader : Option String
  digestHeader : Option String
  contentLengthHeader : Option String
  body : List Nat
deriving DecidableEq

/-- `SignatureHeaders::try_from(&Request)` (rest.rs lines 269-297): pubkey
and signature headers are required; for a POST request carrying a Digest
header the Content-Length header is also required and both are parsed into
the body content, otherwise the content is empty. -/
def SignatureHeaders.tryFrom (req : Request) : Except ResponseError SignatureHeaders :=
  match req.pubkeyHeader with
  | none => .error (.InvalidHeader PUBKEY_HEADER)
  | some pubkey =>
    match req.signatureHeader with
    | none => .error (.InvalidHeader SIGNATURE_HEADER)
    | some sig =>
      if req.method = .post then
        match req.digestHeader with
        | some s =>
          match req.contentLengthHeader with
          | none => .error (.InvalidHeader CONTENT_LENGTH_HEADER)
          | some contentLength =>
            match tryFromHeader contentLength s with
            | .error e => .error e
            | .ok content => .ok ⟨pubkey, some content, some sig⟩
        | none => .ok ⟨pubkey, none, some sig⟩
      else .ok ⟨pubkey, none, some sig⟩

/-- An abstract signature verifier: `verify pubkey message signature` is the
`Production.verify` call of the authentication module (outside the extracted
sources). -/
def SigVerifier : Type := String → String → String → Bool

/-- `SignatureHeaders::try_verify_signature` composed with
`Request::verify_signature` (rest.rs lines 261-266 and 304-314): parse the
signature headers, verify the signature over the canonical message, and
return the public key on success. -/
def verifySignature (verify : SigVerifier) (req : Request) : Except ResponseError String :=
  match SignatureHeaders.tryFrom req with
  | .error e => .error e
  | .ok h =>
    match h.signature with
    | none => .error .MissingSigningKey
    | some sig =>
      if verify h.pubkey h.toMessage sig then .ok h.pubkey
      else .error .InvalidSignature

/-! ## Body integrity and lazy deserialization -/

/-- `LazyJson::<T>::from_data` (rest.rs lines 510-586): require the Digest
and Content-Length headers, parse them with `try_from_header`, read the body
capped at the declared length, recompute its SHA-256, compare the base64 of
that against the digest carried in the header, then deserialize.  `sha256`
abstracts the `sha2::Sha256` hash, `parse` abstracts
`serde_json::from_slice::<T>`. -/
def lazyJsonFromData {T : Type} (sha256 : List Nat → List Nat)
    (parse : List Nat → Except String T) (req : Request) : Except ResponseError T :=
  match req.digestHeader with
  | none => .error (.MissingRequiredHeader BODY_DIGEST_HEADER)
  | some expectedDigest =>
    match req.contentLengthHeader with
    | none => .error (.MissingRequiredHeader CONTENT_LENGTH_HEADER)
    | some contentLength =>
      match tryFromHeader contentLength expectedDigest with
      | .error e => .error e
      | .ok expectedContent =>
        let body := req.body.take expectedContent.len
        let digest := String.mk (base64Encode (sha256 body))
        if digest ≠ expectedContent.digest then
          .error (.MismatchingChecksum expectedDigest expectedContent.digest)
        else
          match parse body with
          | .ok obj => .ok obj
          | .error e => .error (.SerdeError e)

/-! ## Role guard -/

/-- The role information the `CurrentContributor` guard reads from the
coordinator (outside the extracted sources). -/
structure GuardState where
  isCurrentContributor : Participant → Bool
  isBanned : Participant → Bool
  isDropped : Participant → Bool

/-- `CurrentContributor::from_request` (rest.rs lines 387-430), composed
with the request-guard catchers: a signature-verification failure fails the
guard with custom status 452, which the `invalid_signature` catcher turns
into the `InvalidSignature` response; a participant who is not the current
contributor fails with status 453, which the `unauthorized` catcher turns
into `UnauthorizedParticipant` carrying the request uri and a cause naming
banned, dropped or simply not-current. -/
def currentContributorFromRequest (verify : SigVerifier) (gs : GuardState)
    (uri : String) (req : Request) : Except ResponseError Participant :=
  match verifySignature verify req with
  | .error _ => .error .InvalidSignature
  | .ok pubkey =>
    let participant := Participant.contributor pubkey
    if gs.isCurrentContributor participant then .ok participant
    else
      let errorMsg :=
        if gs.isBanned participant then "Participant has been banned from the ceremony"
        else if gs.isDropped participant then "Participant has been dropped from the ceremony"
        else "Participant is not the current contributor"
      .error (.UnauthorizedParticipant participant uri errorMsg)

/-! ## Catcher-composed data-guard semantics -/

/-- `UNKNOWN` (rest.rs line 47), the default the catchers fall back to when
their request-local cache slot was never filled. -/
def UNKNOWN : String := "Unknown"

/-- Rocket's request-local cache as the error catchers see it.  The cache
is keyed by type: the `&'static str` slot, the `String` slot and the
`(String, String)` slot are distinct.  A value cached at one type is
invisible to a read at another type. -/
structure LocalCache where
  strSlot : Option String
  stringSlot : Option String
  pairSlot : Option (String × String)
deriving DecidableEq

/-- `LazyJson::<T>::from_data` (rest.rs lines 510-586) at the Rocket
outcome level: on failure it returns the custom status code of the failing
branch together with the request-local cache as that branch filled it.  The
two missing-header branches cache the header name as a `String`
(`BODY_DIGEST_HEADER.to_string()`, rest.rs lines 517 and 530); the
`try_from_header` branch caches a `&'static str` (the header of an
`InvalidHeader` error, `UNKNOWN` for any other error kind); the checksum
branch caches the `(String, String)` pair of the declared header value and
its parsed digest component; the serde branch caches the error message as a
`String`. -/
def lazyJsonOutcome {T : Type} (sha256 : List Nat → List Nat)
    (parse : List Nat → Except String T) (req : Request) :
    Except (Nat × LocalCache) T :=
  match req.digestHeader with
  | none => .error (454, ⟨none, some BODY_DIGEST_HEADER, none⟩)
  | some expectedDigest =>
    match req.contentLengthHeader with
    | none => .error (454, ⟨none, some CONTENT_LENGTH_HEADER, none⟩)
    | some contentLength =>
      match tryFromHeader contentLength expectedDigest with
      | .error e =>
        .error (457,
          ⟨some (match e with | .InvalidHeader h => h | _ => UNKNOWN), none, none⟩)
      | .ok expectedContent =>
        let body := req.body.take expectedContent.len
        let digest := String.mk (base64Encode (sha256 body))
        if digest ≠ expectedContent.digest then
          .error (456, ⟨none, none, some (expectedDigest, expectedContent.digest)⟩)
        else
          match parse body with
          | .ok obj => .ok obj
          | .error e => .error (455, ⟨none, some e, none⟩)

/-- The data-guard catchers (rest.rs lines 164-192) as a function of the
custom status code and the typed cache: catcher 454 reads the
`&'static str` slot (rest.rs line 166), catcher 455 the `String` slot, 456
the pair slot, 457 the `&'static str` slot, 512 the `String` slot, each
defaulting to `UNKNOWN` when its slot is empty.  Because `from_data` caches
the missing-header name at type `String` while catcher 454 reads at type
`&'static str`, that slot read always defaults. -/
def catchDataGuard (code : Nat) (cache : LocalCache) : ResponseError :=
  if code = 454 then .MissingRequiredHeader (cache.strSlot.getD UNKNOWN)
  else if code = 455 then .SerdeError (cache.stringSlot.getD UNKNOWN)
  else if code = 456 then
    .MismatchingChecksum (cache.pairSlot.getD (UNKNOWN, UNKNOWN)).1
      (cache.pairSlot.getD (UNKNOWN, UNKNOWN)).2
  else if code = 457 then .InvalidHeader (cache.strSlot.getD UNKNOWN)
  else .IoError (cache.stringSlot.getD UNKNOWN)

/-- The client-visible result of the data guard: `from_data` composed with
the catcher for its failure status. -/
def lazyJsonResponse {T : Type} (sha256 : List Nat → List Nat)
    (parse : List Nat → Except String T) (req : Request) : Except ResponseError T :=
  match lazyJsonOutcome sha256 parse req with
  | .ok v => .ok v
  | .error pc => .error (catchDataGuard pc.1 pc.2)

/-- A mutating route carrying a body, as Rocket runs it: the request guard
(`CurrentContributor`, already composed with its catchers) runs first; only
when it succeeds is the data guard (`LazyJson`, composed with its catchers)
consulted. -/
def routeResponse {T : Type} (verify : SigVerifier) (gs : GuardState) (uri : String)
    (sha256 : List Nat → List Nat) (parse : List Nat → Except String T)
    (req : Request) : Except ResponseError T :=
  match currentContributorFromRequest verify gs uri req with
  | .error e => .error e
  | .ok _ => lazyJsonResponse sha256 parse req

/-! ## Object-store gateway (phase2-coordinator/src/s3.rs) -/

/-- `S3Error` of phase2-coordinator/src/s3.rs. -/
inductive S3Error where
  | Client (msg : String)
  | Credentials (msg : String)
  | DeleteError (msg : String)
  | DownloadError (msg : String)
  | EmptyContribution
  | EmptyContributionSignature
  | IOError (msg : String)
  | UploadError (msg : String)
deriving DecidableEq

/-- `MAX_REQUEST_RETRY` (s3.rs line 21). -/
def MAX_REQUEST_RETRY : Nat := 8

/-- `BACKOFF_SLEEP_TIME_MILLISECS` (s3.rs line 20). -/
def BACKOFF_SLEEP_TIME_MILLISECS : Nat := 100

/-- The statuses the retry loops treat as transient
(`429 | 500 | 502 | 503 | 504`). -/
def isTransientStatus (s : Nat) : Bool :=
  s = 429 || s = 500 || s = 502 || s = 503 || s = 504

/-- Outcome of one S3 client call: success with a payload, a
`RusotoError::Unknown` response carrying an HTTP status, or any other
client error. -/
inductive S3CallResult (α : Type) where
  | success (val : α)
  | httpError (status : Nat) (msg : String)
  | otherError (msg : String)

/-- The retry loop shared by `upload_contributions_info`,
`upload_challenge` and `get_object` (s3.rs lines 94-117, 129-157, 194-222,
258-284): `calls n` is the outcome of the n-th S3 call; on a transient
status the loop sleeps `2^attempt * BACKOFF_SLEEP_TIME_MILLISECS`
milliseconds and retries, unless the attempt counter has reached
`MAX_REQUEST_RETRY`, in which case the error is returned; any other error
is returned immediately.  Returns the final result together with the list
of sleeps performed, in order. -/
def retryLoop {α : Type} (mkError : String → S3Error) (calls : Nat → S3CallResult α)
    (attempt : Nat) : Except S3Error α × List Nat :=
  match calls attempt with
  | .success v => (.ok v, [])
  | .otherError msg => (.error (mkError msg), [])
  | .httpError s msg =>
    if isTransientStatus s then
      if MAX_REQUEST_RETRY ≤ attempt then (.error (mkError msg), [])
      else
        let r := retryLoop mkError calls (attempt + 1)
        (r.1, 2 ^ attempt * BACKOFF_SLEEP_TIME_MILLISECS :: r.2)
    else (.error (mkError msg), [])
termination_by MAX_REQUEST_RETRY + 1 - attempt
decreasing_by simp only [MAX_REQUEST_RETRY] at *; omega

/-- `S3Ctx::get_object` (s3.rs lines 255-289): the retry loop with
`DownloadError`, and `EmptyContribution` when the successful response has
no body. -/
def get_object (calls : Nat → S3CallResult (Option (List Nat))) :
    Except S3Error (List Nat) × List Nat :=
  let r := retryLoop S3Error.DownloadError calls 0
  match r.1 with
  | .ok (some bytes) => (.ok bytes, r.2)
  | .ok none => (.error .EmptyContribution, r.2)
  | .error e => (.error e, r.2)

/-- `S3Ctx::upload_challenge` (s3.rs lines 184-231): the retry loop with
`UploadError`; on success a presigned GET url for the key is returned. -/
def upload_challenge (presign : String → String) (key : String)
    (calls : Nat → S3CallResult Unit) : Except S3Error String × List Nat :=
  let r := retryLoop S3Error.UploadError calls 0
  match r.1 with
  | .ok _ => (.ok (presign key), r.2)
  | .error e => (.error e, r.2)

/-- `S3Ctx::get_contribution_urls` (s3.rs lines 234-252): presigned PUT
urls for the two keys, regenerated on every call.  `presign` abstracts
`get_presigned_url` with the context's region, credentials and options. -/
def get_contribution_urls (presign : String → String)
    (contribKey contribSigKey : String) : String × String :=
  (presign contribKey, presign contribSigKey)

/-- The `/upload/chunk` endpoint `get_contribution_url` (rest.rs lines
708-721): build the two canonical keys for the round and presign them.  The
handler receives no coordinator handle; threading an arbitrary state `σ`
through records that the coordinator state is returned unchanged. -/
def get_contribution_url_endpoint {σ : Type} (presign : String → String)
    (coordinatorState : σ) (round_height : Nat) : (String × String) × σ :=
  let contrib_key := "round_" ++ Nat.repr round_height ++ "/chunk_0/contribution_1.unverified"
  let contrib_sig_key :=
    "round_" ++ Nat.repr round_height ++ "/chunk_0/contribution_1.unverified.signature"
  (get_contribution_urls presign contrib_key contrib_sig_key, coordinatorState)

/-! ## Pending-verification processing -/

/-- Coordinator state mutations observable in the recovery path of
`perform_verify_chunks`, recorded in execution order. -/
inductive CoordEvent where
  | resetRound
  | banParticipant (p : Participant)
deriving DecidableEq

/-- The coordinator operations `perform_verify_chunks` calls (all outside
the extracted sources): `verify` is `default_verify` on a task,
`finishedContributors` the result of
`current_round_finished_contributors()`, `resetRound` and `banParticipant`
the round reset and the ban. -/
structure VerifyEnv where
  verify : CTask → Except String Unit
  finishedContributors : Option (List Participant)
  resetRound : Except String Unit
  banParticipant : Participant → Except String Unit

/-- `perform_verify_chunks` (rest.rs lines 788-833): verify each pending
task; on the first failure, take the first finished contributor of the
current round (the two `unwrap`s panic when the list is absent or empty —
modelled as `none`), reset the round, and only then ban that contributor,
returning immediately.  The event list records the successful reset/ban
mutations in order. -/
def perform_verify_chunks (env : VerifyEnv) :
    List CTask → Option (Except ResponseError Unit × List CoordEvent)
  | [] => some (.ok (), [])
  | t :: rest =>
    match env.verify t with
    | .ok _ => perform_verify_chunks env rest
    | .error _ =>
      match env.finishedContributors with
      | none => none
      | some [] => none
      | some (fc :: _) =>
        match env.resetRound with
        | .error e => some (.error (.CoordinatorError e), [])
        | .ok _ =>
          match env.banParticipant fc with
          | .error e => some (.error (.CoordinatorError e), [.resetRound])
          | .ok _ => some (.ok (), [.resetRound, .banParticipant fc])

/-! ## Theorems -/

/-- C4: a token presented to `join_queue` is accepted iff it is 20
hexadecimal digits and is in the current cohort's token set; a token
failing the regular expression yields `InvalidTokenFormat` with status 400,
a well-formed token with no token set for the current cohort yields
`CeremonyIsOver`, and a well-formed token absent from the set yields
`InvalidToken` carrying the cohort index, with status 401. -/
theorem token_check_spec (st : CohortState) (token : String) :
    (token_check st token = .ok () ↔
      tokenMatchesRegex token = true ∧
        ∃ ts, tokensAt st st.cohort = some ts ∧ token ∈ ts) ∧
    (tokenMatchesRegex token = false →
      token_check st token = .error .InvalidTokenFormat ∧
        ResponseError.statusOf .InvalidTokenFormat = 400) ∧
    (tokenMatchesRegex token = true → tokensAt st st.cohort = none →
      token_check st token = .error .CeremonyIsOver) ∧
    (∀ ts, tokenMatchesRegex token = true → tokensAt st st.cohort = some ts →
      token ∉ ts →
      token_check st token = .error (.InvalidToken st.cohort) ∧
        ResponseError.statusOf (.InvalidToken st.cohort) = 401) := by
  unfold token_check
  cases hre : tokenMatchesRegex token with
  | false => simp [hre, ResponseError.statusOf]
  | true =>
    cases hts : tokensAt st st.cohort with
    | none => simp [hre, hts]
    | some ts =>
      by_cases hmem : token ∈ ts
      · simp [hre, hts, hmem, ResponseError.statusOf]
      · simp [hre, hts, hmem, ResponseError.statusOf]

/-- Witness for C4 at a concrete store: a well-formed token absent from
cohort 0's set is rejected as `InvalidToken 0` with status 401. -/
theorem token_check_spec_witness :
    token_check ⟨0, [{"1111111111111111111a"}], none⟩ "1111111111111111111f" =
        .error (.InvalidToken 0) ∧
      ResponseError.statusOf (.InvalidToken 0) = 401 :=
  (token_check_spec ⟨0, [{"1111111111111111111a"}], none⟩ "1111111111111111111f").2.2.2
    _ (by decide) rfl (by decide)

/-- C8: for every round height, `get_contribution_url` returns the
presigned urls of the two canonical keys and leaves the coordinator state
unchanged. -/
theorem contribution_urls_spec {σ : Type} (presign : String → String) (st : σ) (R : Nat) :
    get_contribution_url_endpoint presign st R =
      ((presign ("round_" ++ Nat.repr R ++ "/chunk_0/contribution_1.unverified"),
        presign ("round_" ++ Nat.repr R ++ "/chunk_0/contribution_1.unverified.signature")),
        st) := rfl

/-- Every branch of `update_cohorts` either leaves the state untouched or
succeeds. -/
theorem update_cohorts_state_cases
    (parseArchive : List Nat → Except ResponseError (List (Finset String)))
    (st : CohortState) (zipBytes : List Nat) :
    (update_cohorts parseArchive st zipBytes).2 = st ∨
      (update_cohorts parseArchive st zipBytes).1 = .ok () := by
  unfold update_cohorts
  split
  · left; rfl
  · split
    · left; rfl
    · split
      · split
        · split
          · left; rfl
          · right; rfl
        · left; rfl
      · left; rfl

/-- C1 (amended): `update_cohorts` succeeds only if the current cohort's
token set in the new archive equals the existing one; on success the
archive is persisted, the in-memory tokens are replaced, and the current
cohort's token set is unchanged; on any rejection neither the archive file
nor the in-memory tokens change.  A rejection for non-matching tokens uses
the `InvalidNewTokens` kind, whose HTTP status is 500 (the responder's
catch-all `InternalServerError` arm), not 400. -/
theorem update_cohorts_spec
    (parseArchive : List Nat → Except ResponseError (List (Finset String)))
    (st : CohortState) (zipBytes : List Nat) :
    (∀ st', update_cohorts parseArchive st zipBytes = (.ok (), st') →
      ∃ newTokens oldTokens,
        parseArchive zipBytes = .ok newTokens ∧
        tokensAt st st.cohort = some oldTokens ∧
        newTokens.get? st.cohort = some oldTokens ∧
        st' = { st with archiveFile := some zipBytes, tokens := newTokens } ∧
        tokensAt st' st'.cohort = tokensAt st st.cohort) ∧
    (∀ e, (update_cohorts parseArchive st zipBytes).1 = .error e →
      (update_cohorts parseArchive st zipBytes).2 = st) ∧
    ResponseError.statusOf .InvalidNewTokens = 500 := by
  refine ⟨?_, ?_, rfl⟩
  · intro st' hrun
    unfold update_cohorts at hrun
    split at hrun
    · simp at hrun
    next newTokens hpa =>
      split at hrun
      · simp at hrun
      next oldTokens hold =>
        split at hrun
        next nt hnt =>
          split at hrun
          next hcard =>
            split at hrun
            next hdiff => simp at hrun
            next hdiff =>
              have hsub : nt ⊆ oldTokens := by
                rw [← Finset.sdiff_eq_empty_iff_subset, ← Finset.card_eq_zero]
                omega
              have heq : nt = oldTokens :=
                Finset.eq_of_subset_of_card_le hsub (le_of_eq hcard.symm)
              have hst' : st' = { st with archiveFile := some zipBytes, tokens := newTokens } := by
                have := congrArg Prod.snd hrun
                simpa using this.symm
              refine ⟨newTokens, oldTokens, hpa, hold, heq ▸ hnt, hst', ?_⟩
              rw [hst', hold]
              show newTokens.get? st.cohort = some oldTokens
              rw [hnt, heq]
          next hcard => simp at hrun
        next hnt => simp at hrun
  · intro e he
    rcases update_cohorts_state_cases parseArchive st zipBytes with h | h
    · exact h
    · rw [h] at he; exact absurd he (by simp)

/-- C1 counterexample: a rejected `update_cohorts` returns the
`InvalidNewTokens` kind, but the responder maps that kind to HTTP status
500, not the claimed 400. -/
theorem update_cohorts_status_counterexample :
    (update_cohorts (fun _ => .ok [∅]) ⟨0, [{"aaaaaaaaaaaaaaaaaaaa"}], none⟩ [0]).1 =
        .error .InvalidNewTokens ∧
      ResponseError.statusOf .InvalidNewTokens = 500 ∧
      ResponseError.statusOf .InvalidNewTokens ≠ 400 := by
  refine ⟨rfl, rfl, by decide⟩

/-- A concrete successful archive replacement used as witness input. -/
def archiveParserW : List Nat → Except ResponseError (List (Finset String)) :=
  fun _ => .ok [{"1111111111111111111a"}, {"2222222222222222222b"}]

/-- The concrete state before the witness update. -/
def cohortStateW : CohortState := ⟨0, [{"1111111111111111111a"}], none⟩

/-- The concrete state after the witness update. -/
def cohortStateW' : CohortState :=
  ⟨0, [{"1111111111111111111a"}, {"2222222222222222222b"}], some [7]⟩

/-- Witness for C1 at a concrete input: a successful update keeps the
current cohort's token set and persists the new archive. -/
theorem update_cohorts_spec_witness :
    ∃ newTokens oldTokens,
      archiveParserW [7] = .ok newTokens ∧
      tokensAt cohortStateW cohortStateW.cohort = some oldTokens ∧
      newTokens.get? cohortStateW.cohort = some oldTokens ∧
      cohortStateW' = { cohortStateW with archiveFile := some [7], tokens := newTokens } ∧
      tokensAt cohortStateW' cohortStateW'.cohort =
        tokensAt cohortStateW cohortStateW.cohort :=
  (update_cohorts_spec archiveParserW cohortStateW [7]).1 cohortStateW' (by rfl)

/-- C2: the canonical message on which a mutating request's signature is
verified is `pubkey ++ content_length_decimal ++ base64(sha256(body))`
with no separators when the request carries a body that passes the
integrity check, and the public key string alone when it carries no
body. -/
theorem canonical_message_spec {T : Type} (sha256 : List Nat → List Nat)
    (parse : List Nat → Except String T) (req : Request) (h : SignatureHeaders)
    (hok : SignatureHeaders.tryFrom req = .ok h) :
    (h.content = none → h.toMessage = h.pubkey) ∧
    (∀ c obj, h.content = some c → lazyJsonFromData sha256 parse req = .ok obj →
      h.toMessage = h.pubkey ++ Nat.repr c.len ++
        String.mk (base64Encode (sha256 (req.body.take c.len)))) := by
  constructor
  · intro hc
    unfold SignatureHeaders.toMessage
    rw [hc]
  · intro c obj hc hlazy
    unfold SignatureHeaders.tryFrom at hok
    split at hok
    · simp at hok
    next pubkey hpk =>
      split at hok
      · simp at hok
      next sig hsig =>
        split at hok
        · -- POST branch
          split at hok
          next s hd =>
            split at hok
            · simp at hok
            next contentLength hcl =>
              split at hok
              · simp at hok
              next content hcontent =>
                cases hok
                cases hc
                unfold lazyJsonFromData at hlazy
                simp only [hd, hcl, hcontent] at hlazy
                split at hlazy
                next hne => simp at hlazy
                next hne =>
                  rw [not_not] at hne
                  show pubkey ++ Nat.repr c.len ++ c.digest =
                    pubkey ++ Nat.repr c.len ++
                      String.mk (base64Encode (sha256 (req.body.take c.len)))
                  rw [hne]
          next hd =>
            cases hok
            simp at hc
        · cases hok
          simp at hc

/-- The concrete request used by the C2 witness: a POST whose body is empty
and whose Digest header carries the base64 of the (abstract) hash of the
empty body. -/
def reqC2 : Request := ⟨.post, some "pk", some "sg", some "sha-256=", some "0", []⟩

/-- Witness for C2 at a concrete request: the signed message is the
concatenation of the public key, the decimal length and the base64 body
digest. -/
theorem canonical_message_witness :
    SignatureHeaders.toMessage ⟨"pk", some ⟨0, ""⟩, some "sg"⟩ =
      "pk" ++ Nat.repr 0 ++
        String.mk (base64Encode ((fun _ => []) (reqC2.body.take 0))) :=
  (canonical_message_spec (fun _ => []) (fun _ => Except.ok (0 : Nat)) reqC2
      ⟨"pk", some ⟨0, ""⟩, some "sg"⟩ (by rfl)).2 ⟨0, ""⟩ 0 rfl (by rfl)

/-- C3 (amended): for a request with a body the server recomputes the
SHA-256 of the received bytes and compares its base64 against the value
after the first `=` of the Digest header, reporting a mismatch with the
`MismatchingChecksum` kind, distinct from a signature failure; a missing
Digest header, a Digest header without an `=`, or one whose portion after
the first `=` is not valid base64 are each rejected with a dedicated error
kind (`MissingRequiredHeader`, `InvalidHeader`, `WrongDigestEncoding`); the
prefix before the first `=` is not validated. -/
theorem digest_check_spec {T : Type} (sha256 : List Nat → List Nat)
    (parse : List Nat → Except String T) (req : Request) :
    (req.digestHeader = none →
      lazyJsonFromData sha256 parse req =
        .error (.MissingRequiredHeader BODY_DIGEST_HEADER)) ∧
    (∀ d cl, req.digestHeader = some d → req.contentLengthHeader = some cl →
      splitOnceEq d = none →
      lazyJsonFromData sha256 parse req = .error (.InvalidHeader BODY_DIGEST_HEADER)) ∧
    (∀ d cl pre post, req.digestHeader = some d → req.contentLengthHeader = some cl →
      splitOnceEq d = some (pre, post) → base64Decode post.data = none →
      lazyJsonFromData sha256 parse req = .error (.WrongDigestEncoding post)) ∧
    (∀ d cl c, req.digestHeader = some d → req.contentLengthHeader = some cl →
      tryFromHeader cl d = .ok c →
      String.mk (base64Encode (sha256 (req.body.take c.len))) ≠ c.digest →
      lazyJsonFromData sha256 parse req = .error (.MismatchingChecksum d c.digest) ∧
        ResponseError.MismatchingChecksum d c.digest ≠ .InvalidSignature) := by
  refine ⟨?_, ?_, ?_, ?_⟩
  · intro hd
    simp [lazyJsonFromData, hd]
  · intro d cl hd hcl hsplit
    simp [lazyJsonFromData, hd, hcl, tryFromHeader, hsplit]
  · intro d cl pre post hd hcl hsplit hdec
    simp [lazyJsonFromData, hd, hcl, tryFromHeader, hsplit, hdec]
  · intro d cl c hd hcl hh hne
    refine ⟨?_, by simp⟩
    simp [lazyJsonFromData, hd, hcl, hh, hne]

/-- The concrete request of the C3 counterexample: its Digest header has
prefix `md5`, not `sha-256`. -/
def reqC3 : Request := ⟨.post, some "pk", some "sg", some "md5=AAAA", some "3", [1, 2, 3]⟩

/-- C3 counterexample: a Digest header that is not of the form
`sha-256=<base64>` (here `md5=AAAA`) is not rejected: the prefix before the
first `=` is ignored, and the request is accepted when the digest value
matches the body hash. -/
theorem digest_prefix_counterexample :
    reqC3.digestHeader = some "md5=AAAA" ∧
    (splitOnceEq "md5=AAAA").map Prod.fst = some "md5" ∧
    "md5" ≠ "sha-256" ∧
    lazyJsonFromData (fun _ => [0, 0, 0]) (fun _ => Except.ok (0 : Nat)) reqC3 = .ok 0 :=
  ⟨rfl, rfl, by decide, rfl⟩

/-- The concrete request of the C3 witness: a Digest header whose portion
after the `=` is not valid base64. -/
def reqC3w : Request := ⟨.post, some "pk", some "sg", some "sha-256=!!", some "3", [1, 2, 3]⟩

/-- Witness for C3 at a concrete request: a Digest value that is not base64
is rejected with the dedicated `WrongDigestEncoding` kind. -/
theorem digest_check_witness :
    lazyJsonFromData (fun _ => [0, 0, 0]) (fun _ => Except.ok (0 : Nat)) reqC3w =
      .error (.WrongDigestEncoding "!!") :=
  (digest_check_spec (fun _ => [0, 0, 0]) (fun _ => Except.ok (0 : Nat)) reqC3w).2.2.1
    "sha-256=!!" "3" "sha-256" "!!" rfl rfl (by rfl) (by rfl)

/-- C10: the body is read capped at the declared Content-Length before the
digest check and deserialization, so the whole processing of a request
equals the processing of its truncated body, and appending extra bytes
beyond the declared length changes nothing. -/
theorem body_truncation_spec {T : Type} (sha256 : List Nat → List Nat)
    (parse : List Nat → Except String T) (req : Request)
    (expectedDigest contentLength : String) (c : RequestContent)
    (hd : req.digestHeader = some expectedDigest)
    (hc : req.contentLengthHeader = some contentLength)
    (hh : tryFromHeader contentLength expectedDigest = .ok c) :
    lazyJsonFromData sha256 parse req =
      lazyJsonFromData sha256 parse { req with body := req.body.take c.len } ∧
    (∀ extra, c.len ≤ req.body.length →
      lazyJsonFromData sha256 parse { req with body := req.body ++ extra } =
        lazyJsonFromData sha256 parse req) := by
  constructor
  · simp [lazyJsonFromData, hd, hc, hh, List.take_take]
  · intro extra hlen
    simp [lazyJsonFromData, hd, hc, hh, List.take_append_of_le_length hlen]

/-- The concrete request of the C10 witness: two body bytes beyond the
declared length 0. -/
def reqC10 : Request := ⟨.post, some "pk", some "sg", some "sha-256=", some "0", [9, 9]⟩

/-- Witness for C10 at a concrete request: processing a request whose body
exceeds the declared Content-Length equals processing the truncated
request. -/
theorem body_truncation_witness :
    lazyJsonFromData (fun _ => []) (fun _ => Except.ok (0 : Nat)) reqC10 =
      lazyJsonFromData (fun _ => []) (fun _ => Except.ok (0 : Nat))
        { reqC10 with body := reqC10.body.take 0 } :=
  (body_truncation_spec (fun _ => []) (fun _ => Except.ok (0 : Nat)) reqC10
    "sha-256=" "0" ⟨0, ""⟩ rfl rfl (by rfl)).1

/-- No client-visible error of the composed data guard has status 411: the
454 catcher's `&'static str` cache read never sees the header name
`from_data` cached at type `String`, so it rebuilds
`MissingRequiredHeader(UNKNOWN)`, which the responder maps to 400. -/
theorem lazyJsonResponse_no_411 {T : Type} (sha256 : List Nat → List Nat)
    (parse : List Nat → Except String T) (req : Request) :
    ∀ e, lazyJsonResponse sha256 parse req = .error e →
      ResponseError.statusOf e ≠ 411 := by
  intro e he
  unfold lazyJsonResponse at he
  split at he
  · simp at he
  next pc hout =>
    simp only [Except.error.injEq] at he
    subst he
    unfold lazyJsonOutcome at hout
    split at hout
    · simp only [Except.error.injEq] at hout
      rw [← hout]
      decide
    · split at hout
      · simp only [Except.error.injEq] at hout
        rw [← hout]
        decide
      · split at hout
        next err herr =>
          simp only [Except.error.injEq] at hout
          rw [← hout]
          simp [catchDataGuard, ResponseError.statusOf]
        next c hc =>
          dsimp only at hout
          split at hout
          next hne =>
            simp only [Except.error.injEq] at hout
            rw [← hout]
            simp [catchDataGuard, ResponseError.statusOf]
          next hne =>
            split at hout
            · simp at hout
            next msg hmsg =>
              simp only [Except.error.injEq] at hout
              rw [← hout]
              simp [catchDataGuard, ResponseError.statusOf]

/-- C7 (amended): each guard failure maps, through the registered catchers,
to its specific HTTP status: an invalid signature yields 400 (the 452
catcher remaps every signature-guard failure to `InvalidSignature`); a
valid signature from the wrong role yields 401 with a descriptive cause; a
malformed header yields 400; a missing Content-Length header yields 400 and
never 411 — with a Digest header present the signature guard fails first as
`InvalidSignature`, and even the data guard's own missing-header branch is
answered by the 454 catcher as `MissingRequiredHeader("Unknown")` because
of the differently-typed cache slot, which maps to 400; a body digest
mismatch yields 400 carrying the declared Digest header value and its
parsed digest component (not the recomputed digest); a deserialization
failure yields 422. -/
theorem guard_status_map {T : Type}
    (verify : SigVerifier) (gs : GuardState) (uri : String) (req : Request)
    (sha256 : List Nat → List Nat) (parse : List Nat → Except String T) :
    (∀ e, verifySignature verify req = .error e →
      routeResponse verify gs uri sha256 parse req = .error .InvalidSignature ∧
        ResponseError.statusOf .InvalidSignature = 400) ∧
    (∀ pubkey, verifySignature verify req = .ok pubkey →
      gs.isCurrentContributor (.contributor pubkey) = false →
      ∃ cause, routeResponse verify gs uri sha256 parse req =
          .error (.UnauthorizedParticipant (.contributor pubkey) uri cause) ∧
        ResponseError.statusOf
          (.UnauthorizedParticipant (.contributor pubkey) uri cause) = 401) ∧
    (∀ d cl, req.digestHeader = some d → req.contentLengthHeader = some cl →
      splitOnceEq d = none →
      lazyJsonResponse sha256 parse req = .error (.InvalidHeader BODY_DIGEST_HEADER) ∧
        ResponseError.statusOf (.InvalidHeader BODY_DIGEST_HEADER) = 400) ∧
    (∀ pk sg d, req.method = .post → req.pubkeyHeader = some pk →
      req.signatureHeader = some sg → req.digestHeader = some d →
      req.contentLengthHeader = none →
      routeResponse verify gs uri sha256 parse req = .error .InvalidSignature ∧
        ResponseError.statusOf .InvalidSignature = 400) ∧
    (∀ d, req.digestHeader = some d → req.contentLengthHeader = none →
      lazyJsonResponse sha256 parse req = .error (.MissingRequiredHeader UNKNOWN) ∧
        ResponseError.statusOf (.MissingRequiredHeader UNKNOWN) = 400) ∧
    (∀ e, routeResponse verify gs uri sha256 parse req = .error e →
      ResponseError.statusOf e ≠ 411) ∧
    (∀ d cl c, req.digestHeader = some d → req.contentLengthHeader = some cl →
      tryFromHeader cl d = .ok c →
      String.mk (base64Encode (sha256 (req.body.take c.len))) ≠ c.digest →
      lazyJsonResponse sha256 parse req = .error (.MismatchingChecksum d c.digest) ∧
        ResponseError.statusOf (.MismatchingChecksum d c.digest) = 400) ∧
    (∀ d cl c msg, req.digestHeader = some d → req.contentLengthHeader = some cl →
      tryFromHeader cl d = .ok c →
      String.mk (base64Encode (sha256 (req.body.take c.len))) = c.digest →
      parse (req.body.take c.len) = .error msg →
      lazyJsonResponse sha256 parse req = .error (.SerdeError msg) ∧
        ResponseError.statusOf (.SerdeError msg) = 422) := by
  refine ⟨?_, ?_, ?_, ?_, ?_, ?_, ?_, ?_⟩
  · intro e he
    refine ⟨?_, rfl⟩
    unfold routeResponse currentContributorFromRequest
    rw [he]
  · intro pubkey hv hrole
    unfold routeResponse currentContributorFromRequest
    rw [hv]
    simp only [hrole, Bool.false_eq_true, if_false]
    exact ⟨_, rfl, rfl⟩
  · intro d cl hd hcl hsplit
    refine ⟨?_, rfl⟩
    simp [lazyJsonResponse, lazyJsonOutcome, tryFromHeader, hd, hcl, hsplit, catchDataGuard]
  · intro pk sg d hmeth hpk hsg hd hcl
    refine ⟨?_, rfl⟩
    simp [routeResponse, currentContributorFromRequest, verifySignature,
      SignatureHeaders.tryFrom, hmeth, hpk, hsg, hd, hcl]
  · intro d hd hcl
    refine ⟨?_, by decide⟩
    simp [lazyJsonResponse, lazyJsonOutcome, hd, hcl, catchDataGuard]
  · intro e he
    unfold routeResponse at he
    split at he
    next e' hguard =>
      simp only [Except.error.injEq] at he
      subst he
      unfold currentContributorFromRequest at hguard
      split at hguard
      · simp only [Except.error.injEq] at hguard
        rw [← hguard]
        decide
      next pubkey hv =>
        dsimp only at hguard
        split at hguard
        · simp at hguard
        next hrole =>
          simp only [Except.error.injEq] at hguard
          rw [← hguard]
          simp [ResponseError.statusOf]
    next v hguard =>
      exact lazyJsonResponse_no_411 sha256 parse req e he
  · intro d cl c hd hcl hh hne
    refine ⟨?_, rfl⟩
    simp [lazyJsonResponse, lazyJsonOutcome, hd, hcl, hh, hne, catchDataGuard]
  · intro d cl c msg hd hcl hh heq hpar
    refine ⟨?_, rfl⟩
    simp [lazyJsonResponse, lazyJsonOutcome, hd, hcl, hh, heq, hpar, catchDataGuard]

/-- A signature verifier accepting everything, for the C7 witness. -/
def verifyW : SigVerifier := fun _ _ _ => true

/-- A guard state in which nobody is the current contributor, for the C7
witness. -/
def gsW : GuardState := ⟨fun _ => false, fun _ => false, fun _ => false⟩

/-- The concrete bodyless request of the C7 witness. -/
def reqC7get : Request := ⟨.get, some "pk", some "sg", none, none, []⟩

/-- Witness for C7 at a concrete request: a correctly signed request from a
participant who is not the current contributor yields
`UnauthorizedParticipant` with a cause, status 401. -/
theorem guard_status_witness :
    ∃ cause, routeResponse verifyW gsW "/contributor/lock_chunk"
          (fun _ => []) (fun _ => Except.ok (0 : Nat)) reqC7get =
        .error (.UnauthorizedParticipant (.contributor "pk") "/contributor/lock_chunk" cause) ∧
      ResponseError.statusOf
        (.UnauthorizedParticipant (.contributor "pk") "/contributor/lock_chunk" cause) = 401 :=
  (guard_status_map verifyW gsW "/contributor/lock_chunk" reqC7get
    (fun _ => []) (fun _ => Except.ok (0 : Nat))).2.1 "pk" (by rfl) rfl

/-- The concrete request of the C7 counterexample, whose Digest header does
not match its (abstractly hashed) body. -/
def reqC7 : Request := ⟨.post, some "pk", some "sg", some "sha-256=BBBB", some "0", []⟩

/-- The concrete request of the C7 counterexample with a Digest header but
no Content-Length header. -/
def reqC7noCL : Request := ⟨.post, some "pk", some "sg", some "sha-256=", none, []⟩

/-- C7 counterexample: an invalid signature maps to HTTP 400, not the
claimed 401; the digest-mismatch error carries the declared header value
and its parsed digest component, neither of which is the recomputed actual
digest (here the empty string); and a missing Content-Length header never
yields 411: the route answers it as `InvalidSignature` (the signature guard
fails first), and even the data guard's own missing-header branch is
answered as `MissingRequiredHeader("Unknown")`, both with status 400. -/
theorem guard_status_counterexample :
    ResponseError.statusOf .InvalidSignature = 400 ∧ (400 : Nat) ≠ 401 ∧
    lazyJsonResponse (fun _ => []) (fun _ => Except.ok (0 : Nat)) reqC7 =
      .error (.MismatchingChecksum "sha-256=BBBB" "BBBB") ∧
    String.mk (base64Encode []) = "" ∧ "sha-256=BBBB" ≠ "" ∧ "BBBB" ≠ "" ∧
    routeResponse verifyW gsW "/contributor/contribution_info"
        (fun _ => []) (fun _ => Except.ok (0 : Nat)) reqC7noCL = .error .InvalidSignature ∧
    lazyJsonResponse (fun _ => []) (fun _ => Except.ok (0 : Nat)) reqC7noCL =
      .error (.MissingRequiredHeader UNKNOWN) ∧
    ResponseError.statusOf (.MissingRequiredHeader UNKNOWN) = 400 ∧
    ResponseError.statusOf .InvalidSignature ≠ 411 ∧
    ResponseError.statusOf (.MissingRequiredHeader UNKNOWN) ≠ 411 :=
  ⟨rfl, by decide, rfl, rfl, by decide, by decide, rfl, rfl, by decide, by decide, by decide⟩

/-- C5: in `perform_verify_chunks` a ban is never recorded before the round
reset: every `banParticipant` event in the execution trace is preceded by a
`resetRound` event, and on a failed verification with a successful recovery
the trace is exactly the reset followed by the ban of the finished
contributor. -/
theorem reset_precedes_ban (env : VerifyEnv) (pending : List CTask) :
    (∀ res trace j p, perform_verify_chunks env pending = some (res, trace) →
      trace.get? j = some (.banParticipant p) →
      ∃ i, i < j ∧ trace.get? i = some .resetRound) ∧
    (∀ t rest e fc others, pending = t :: rest → env.verify t = .error e →
      env.finishedContributors = some (fc :: others) →
      env.resetRound = .ok () → env.banParticipant fc = .ok () →
      perform_verify_chunks env pending =
        some (.ok (), [.resetRound, .banParticipant fc])) := by
  constructor
  · induction pending with
    | nil =>
      intro res trace j p hrun hj
      simp only [perform_verify_chunks, Option.some.injEq, Prod.mk.injEq] at hrun
      obtain ⟨-, h2⟩ := hrun
      rw [← h2] at hj
      simp at hj
    | cons t rest ih =>
      intro res trace j p hrun hj
      simp only [perform_verify_chunks] at hrun
      split at hrun
      · exact ih res trace j p hrun hj
      · split at hrun
        · exact absurd hrun (by simp)
        · exact absurd hrun (by simp)
        next fc others =>
          split at hrun
          · simp only [Option.some.injEq, Prod.mk.injEq] at hrun
            obtain ⟨-, h2⟩ := hrun
            rw [← h2] at hj
            simp at hj
          · split at hrun
            · simp only [Option.some.injEq, Prod.mk.injEq] at hrun
              obtain ⟨-, h2⟩ := hrun
              rw [← h2] at hj
              rcases j with _ | j <;> simp at hj
            · simp only [Option.some.injEq, Prod.mk.injEq] at hrun
              obtain ⟨-, h2⟩ := hrun
              rw [← h2] at hj
              rw [← h2]
              rcases j with _ | _ | j
              · simp at hj
              · exact ⟨0, Nat.zero_lt_one, rfl⟩
              · simp at hj
  · intro t rest e fc others hp hv hfin hreset hban
    subst hp
    simp [perform_verify_chunks, hv, hfin, hreset, hban]

/-- The concrete environment of the C5 witness: verification fails, one
finished contributor exists, reset and ban both succeed. -/
def verifyEnvW : VerifyEnv :=
  ⟨fun _ => .error "invalid contribution", some [.contributor "pk"], .ok (), fun _ => .ok ()⟩

/-- The concrete pending task of the C5 and C9 witnesses. -/
def taskW : CTask := ⟨1, 0, 1⟩

/-- Witness for C5 at a concrete environment: the recovery trace is the
reset followed by the ban. -/
theorem reset_precedes_ban_witness :
    perform_verify_chunks verifyEnvW [taskW] =
      some (.ok (), [.resetRound, .banParticipant (.contributor "pk")]) :=
  (reset_precedes_ban verifyEnvW [taskW]).2 taskW [] "invalid contribution"
    (.contributor "pk") [] rfl rfl rfl rfl rfl

/-- C9: `perform_verify_chunks` panics (the two `unwrap`s of the recovery
path) exactly when some pending verification fails while the
finished-contributor list of the current round is absent or empty; the
unwraps are safe precisely under the precondition that a finished
contributor exists. -/
theorem verify_panic_iff (env : VerifyEnv) (pending : List CTask) :
    perform_verify_chunks env pending = none ↔
      ((∃ t ∈ pending, ∃ e, env.verify t = .error e) ∧
        (env.finishedContributors = none ∨ env.finishedContributors = some [])) := by
  induction pending with
  | nil => simp [perform_verify_chunks]
  | cons t rest ih =>
    cases hv : env.verify t with
    | ok u =>
      simp only [perform_verify_chunks, hv]
      rw [ih]
      constructor
      · rintro ⟨⟨t', ht', e, he⟩, hfin⟩
        exact ⟨⟨t', List.mem_cons_of_mem _ ht', e, he⟩, hfin⟩
      · rintro ⟨⟨t', ht', e, he⟩, hfin⟩
        rcases List.mem_cons.mp ht' with rfl | hmem
        · rw [hv] at he; cases he
        · exact ⟨⟨t', hmem, e, he⟩, hfin⟩
    | error e =>
      simp only [perform_verify_chunks, hv]
      cases hfin : env.finishedContributors with
      | none =>
        constructor
        · intro _
          exact ⟨⟨t, List.mem_cons_self t rest, e, hv⟩, Or.inl rfl⟩
        · intro _; rfl
      | some l =>
        cases l with
        | nil =>
          constructor
          · intro _
            exact ⟨⟨t, List.mem_cons_self t rest, e, hv⟩, Or.inr rfl⟩
          · intro _; rfl
        | cons fc others =>
          constructor
          · intro h
            cases hr : env.resetRound with
            | error e' => simp only [hr] at h; cases h
            | ok u =>
              simp only [hr] at h
              cases hb : env.banParticipant fc with
              | error e' => simp only [hb] at h; cases h
              | ok u' => simp only [hb] at h; cases h
          · rintro ⟨-, hfin2 | hfin2⟩
            · exact absurd hfin2 (by simp)
            · exact absurd hfin2 (by simp)

/-- Unfolding of `retryLoop` on a successful call. -/
theorem retryLoop_eq_success {α : Type} (mk : String → S3Error) (calls : Nat → S3CallResult α)
    (a : Nat) (v : α) (h : calls a = .success v) : retryLoop mk calls a = (.ok v, []) := by
  rw [retryLoop, h]

/-- Unfolding of `retryLoop` on a non-Unknown client error. -/
theorem retryLoop_eq_other {α : Type} (mk : String → S3Error) (calls : Nat → S3CallResult α)
    (a : Nat) (m : String) (h : calls a = .otherError m) :
    retryLoop mk calls a = (.error (mk m), []) := by
  rw [retryLoop, h]

/-- Unfolding of `retryLoop` on a non-transient HTTP status. -/
theorem retryLoop_eq_nontransient {α : Type} (mk : String → S3Error)
    (calls : Nat → S3CallResult α) (a s : Nat) (m : String) (h : calls a = .httpError s m)
    (ht : isTransientStatus s = false) : retryLoop mk calls a = (.error (mk m), []) := by
  rw [retryLoop, h]
  simp [ht]

/-- Unfolding of `retryLoop` on a transient status once the retry budget is
exhausted. -/
theorem retryLoop_eq_maxed {α : Type} (mk : String → S3Error) (calls : Nat → S3CallResult α)
    (a s : Nat) (m : String) (h : calls a = .httpError s m) (ht : isTransientStatus s = true)
    (hge : MAX_REQUEST_RETRY ≤ a) : retryLoop mk calls a = (.error (mk m), []) := by
  rw [retryLoop, h]
  simp [ht, hge]

/-- Unfolding of `retryLoop` on a transient status with budget left: sleep
and retry. -/
theorem retryLoop_eq_retry {α : Type} (mk : String → S3Error) (calls : Nat → S3CallResult α)
    (a s : Nat) (m : String) (h : calls a = .httpError s m) (ht : isTransientStatus s = true)
    (hlt : a < MAX_REQUEST_RETRY) :
    retryLoop mk calls a =
      ((retryLoop mk calls (a + 1)).1,
        2 ^ a * BACKOFF_SLEEP_TIME_MILLISECS :: (retryLoop mk calls (a + 1)).2) := by
  rw [retryLoop, h]
  simp [ht, Nat.not_le.mpr hlt]

/-- Full characterization of `retryLoop` from any starting attempt within
the budget: there is a retry count `n` such that every call before the
`n`-th returned a transient status, the sleeps are the doubling backoff
sequence, and the outcome is decided by the `n`-th call. -/
theorem retryLoop_spec_aux {α : Type} (mkError : String → S3Error)
    (calls : Nat → S3CallResult α) (attempt : Nat)
    (hle : attempt ≤ MAX_REQUEST_RETRY) :
    ∃ n, attempt ≤ n ∧ n ≤ MAX_REQUEST_RETRY ∧
      (retryLoop mkError calls attempt).2 =
        (List.range (n - attempt)).map
          (fun i => 2 ^ (attempt + i) * BACKOFF_SLEEP_TIME_MILLISECS) ∧
      (∀ i, attempt ≤ i → i < n →
        ∃ s msg, calls i = .httpError s msg ∧ isTransientStatus s = true) ∧
      (∀ s msg, calls n = .httpError s msg → isTransientStatus s = false →
        (retryLoop mkError calls attempt).1 = .error (mkError msg)) ∧
      (∀ msg, calls n = .otherError msg →
        (retryLoop mkError calls attempt).1 = .error (mkError msg)) ∧
      (∀ s msg, calls n = .httpError s msg → isTransientStatus s = true →
        n = MAX_REQUEST_RETRY ∧
          (retryLoop mkError calls attempt).1 = .error (mkError msg)) ∧
      (∀ v, calls n = .success v → (retryLoop mkError calls attempt).1 = .ok v) := by
  cases hc : calls attempt with
  | success v =>
    refine ⟨attempt, le_refl _, hle, ?_, ?_, ?_, ?_, ?_, ?_⟩
    · rw [retryLoop_eq_success mkError calls attempt v hc]
      simp
    · intro i h1 h2; omega
    · intro s msg h ht; rw [hc] at h; simp at h
    · intro msg h; rw [hc] at h; simp at h
    · intro s msg h ht; rw [hc] at h; simp at h
    · intro v' h
      rw [hc] at h
      simp only [S3CallResult.success.injEq] at h
      subst h
      rw [retryLoop_eq_success mkError calls attempt v hc]
  | otherError m =>
    refine ⟨attempt, le_refl _, hle, ?_, ?_, ?_, ?_, ?_, ?_⟩
    · rw [retryLoop_eq_other mkError calls attempt m hc]
      simp
    · intro i h1 h2; omega
    · intro s msg h ht; rw [hc] at h; simp at h
    · intro msg h
      rw [hc] at h
      simp only [S3CallResult.otherError.injEq] at h
      subst h
      rw [retryLoop_eq_other mkError calls attempt m hc]
    · intro s msg h ht; rw [hc] at h; simp at h
    · intro v h; rw [hc] at h; simp at h
  | httpError s m =>
    cases ht : isTransientStatus s with
    | false =>
      refine ⟨attempt, le_refl _, hle, ?_, ?_, ?_, ?_, ?_, ?_⟩
      · rw [retryLoop_eq_nontransient mkError calls attempt s m hc ht]
        simp
      · intro i h1 h2; omega
      · intro s' msg h _
        rw [hc] at h
        simp only [S3CallResult.httpError.injEq] at h
        obtain ⟨h1, h2⟩ := h
        subst h1; subst h2
        rw [retryLoop_eq_nontransient mkError calls attempt s m hc ht]
      · intro msg h; rw [hc] at h; simp at h
      · intro s' msg h ht'
        rw [hc] at h
        simp only [S3CallResult.httpError.injEq] at h
        obtain ⟨h1, -⟩ := h
        subst h1
        rw [ht] at ht'
        cases ht'
      · intro v h; rw [hc] at h; simp at h
    | true =>
      by_cases hmax : MAX_REQUEST_RETRY ≤ attempt
      · refine ⟨attempt, le_refl _, hle, ?_, ?_, ?_, ?_, ?_, ?_⟩
        · rw [retryLoop_eq_maxed mkError calls attempt s m hc ht hmax]
          simp
        · intro i h1 h2; omega
        · intro s' msg h ht'
          rw [hc] at h
          simp only [S3CallResult.httpError.injEq] at h
          obtain ⟨h1, -⟩ := h
          subst h1
          rw [ht] at ht'
          cases ht'
        · intro msg h; rw [hc] at h; simp at h
        · intro s' msg h ht'
          rw [hc] at h
          simp only [S3CallResult.httpError.injEq] at h
          obtain ⟨-, h2⟩ := h
          subst h2
          exact ⟨by omega, by rw [retryLoop_eq_maxed mkError calls attempt s m hc ht hmax]⟩
        · intro v h; rw [hc] at h; simp at h
      · have hlt : attempt < MAX_REQUEST_RETRY := Nat.not_le.mp hmax
        obtain ⟨n, h1, h2, hsl, htr, c1, c2, c3, c4⟩ :=
          retryLoop_spec_aux mkError calls (attempt + 1) (by omega)
        refine ⟨n, by omega, h2, ?_, ?_, ?_, ?_, ?_, ?_⟩
        · rw [retryLoop_eq_retry mkError calls attempt s m hc ht hlt]
          have hk : n - attempt = (n - (attempt + 1)) + 1 := by omega
          rw [hsl, hk, List.range_succ_eq_map, List.map_cons, List.map_map]
          norm_num
          intro a ha
          exact Or.inl (by omega)
        · intro i hi1 hi2
          rcases Nat.eq_or_lt_of_le hi1 with heq | hlt2
          · subst heq
            exact ⟨s, m, hc, ht⟩
          · exact htr i (by omega) hi2
        · intro s' msg h ht'
          rw [retryLoop_eq_retry mkError calls attempt s m hc ht hlt]
          exact c1 s' msg h ht'
        · intro msg h
          rw [retryLoop_eq_retry mkError calls attempt s m hc ht hlt]
          exact c2 msg h
        · intro s' msg h ht'
          rw [retryLoop_eq_retry mkError calls attempt s m hc ht hlt]
          exact c3 s' msg h ht'
        · intro v h
          rw [retryLoop_eq_retry mkError calls attempt s m hc ht hlt]
          exact c4 v h
termination_by MAX_REQUEST_RETRY + 1 - attempt
decreasing_by simp only [MAX_REQUEST_RETRY] at *; omega

/-- C6: the object-store retry loop retries only on HTTP 429, 500, 502,
503, 504, sleeping 100 ms before the first retry and doubling on each
subsequent one, for at most 8 retry attempts before returning the
download/upload/delete error; any non-transient error is returned
immediately with no retry.  `get_object` and `upload_challenge` perform
exactly the sleeps of the loop. -/
theorem retry_policy {α : Type} (mkError : String → S3Error)
    (calls : Nat → S3CallResult α) :
    (∃ n, n ≤ MAX_REQUEST_RETRY ∧
      (retryLoop mkError calls 0).2 =
        (List.range n).map (fun i => 2 ^ i * BACKOFF_SLEEP_TIME_MILLISECS) ∧
      (∀ i, i < n → ∃ s msg, calls i = .httpError s msg ∧ isTransientStatus s = true) ∧
      (∀ s msg, calls n = .httpError s msg → isTransientStatus s = false →
        (retryLoop mkError calls 0).1 = .error (mkError msg)) ∧
      (∀ msg, calls n = .otherError msg →
        (retryLoop mkError calls 0).1 = .error (mkError msg)) ∧
      (∀ s msg, calls n = .httpError s msg → isTransientStatus s = true →
        n = MAX_REQUEST_RETRY ∧ (retryLoop mkError calls 0).1 = .error (mkError msg)) ∧
      (∀ v, calls n = .success v → (retryLoop mkError calls 0).1 = .ok v)) ∧
    (∀ getCalls : Nat → S3CallResult (Option (List Nat)),
      (get_object getCalls).2 = (retryLoop S3Error.DownloadError getCalls 0).2) ∧
    (∀ (presign : String → String) (key : String) (upCalls : Nat → S3CallResult Unit),
      (upload_challenge presign key upCalls).2 =
        (retryLoop S3Error.UploadError upCalls 0).2) := by
  refine ⟨?_, ?_, ?_⟩
  · obtain ⟨n, -, h2, hsl, htr, c1, c2, c3, c4⟩ :=
      retryLoop_spec_aux mkError calls 0 (Nat.zero_le _)
    refine ⟨n, h2, ?_, fun i hi => htr i (Nat.zero_le i) hi, c1, c2, c3, c4⟩
    rw [hsl]
    simp
  · intro getCalls
    rcases h : (retryLoop S3Error.DownloadError getCalls 0).1 with e | b
    · simp [get_object, h]
    · rcases b with _ | bytes <;> simp [get_object, h]
  · intro presign key upCalls
    rcases h : (retryLoop S3Error.UploadError upCalls 0).1 with e | u
    · simp [upload_challenge, h]
    · simp [upload_challenge, h]

/-- Witness for C6 at a concrete call stream: a non-transient error is
surfaced immediately as a download error. -/
theorem retry_policy_witness :
    (retryLoop S3Error.DownloadError
        (fun _ => S3CallResult.otherError (α := Option (List Nat)) "connection refused") 0).1 =
      .error (.DownloadError "connection refused") := by
  obtain ⟨⟨n, -, -, -, -, hother, -, -⟩, -, -⟩ :=
    retry_policy S3Error.DownloadError
      (fun _ => S3CallResult.otherError (α := Option (List Nat)) "connection refused")
  exact hother "connection refused" rfl

/-- The concrete environment of the C9 witness: verification fails and no
finished contributor exists. -/
def verifyEnvPanic : VerifyEnv :=
  ⟨fun _ => .error "invalid contribution", none, .ok (), fun _ => .ok ()⟩

/-- Witness for C9 at a concrete environment: a failing verification with
no finished contributor makes the recovery path panic. -/
theorem verify_panic_witness : perform_verify_chunks verifyEnvPanic [taskW] = none :=
  (verify_panic_iff verifyEnvPanic [taskW]).mpr
    ⟨⟨taskW, List.mem_cons_self taskW [], "invalid contribution", rfl⟩, Or.inl rfl⟩

end Ceremony
